import Mathlib

/-!
Verification of the data-transformation logic of `marketplace_dashboard.py`.

The dashboard is a single linear pipeline: load a CSV, compute four scalar
KPIs, aggregate a time series by month, draw a fixed-size random sample for
a scatter plot, and build three chart specifications.  We embed the table as
a `List Row`, dates as month ordinals (`Nat`), and monetary amounts as `ℚ`.
Library calls (`pandas.read_csv`, `to_datetime`, `groupby`, `median`,
`nunique`, `sample`) are modelled by executable Lean functions that follow
their documented semantics on the arguments the script passes.
-/

namespace Marketplace

/-- One parsed listing record (one CSV row after `load_data` succeeds).
`published_month` is the parsed date, encoded as a month ordinal
(`year * 12 + (month - 1)`); ordering of ordinals matches date ordering. -/
structure Row where
  published_month : Nat
  job_count : Nat
  simulated_platform_fee : ℚ
  price_gap_abs : ℚ
  client_budget_usd : ℚ
  country : String
  budget_category : String
deriving Repr, DecidableEq

/-- One raw CSV record as `pd.read_csv` returns it: `published_month` is
still the unparsed text that `pd.to_datetime` will be applied to. -/
structure RawRow where
  published_month : String
  job_count : Nat
  simulated_platform_fee : ℚ
  price_gap_abs : ℚ
  client_budget_usd : ℚ
  country : String
  budget_category : String
deriving Repr, DecidableEq

/-- Value of a decimal digit character, `none` on a non-digit. -/
def digitVal (c : Char) : Option Nat :=
  if '0' ≤ c ∧ c ≤ '9' then some (c.toNat - 48) else none

/-- Accumulating decimal parser over a character list. -/
def parseNatAux : List Char → Nat → Option Nat
  | [], acc => some acc
  | c :: cs, acc =>
    match digitVal c with
    | some d => parseNatAux cs (acc * 10 + d)
    | none => none

/-- Parse a nonempty all-digit character list as a decimal number. -/
def parseNatChars (cs : List Char) : Option Nat :=
  if cs.isEmpty then none else parseNatAux cs 0

/-- Split a character list on the dash separator. -/
def splitDashAux : List Char → List Char → List (List Char)
  | [], acc => [acc.reverse]
  | c :: cs, acc =>
    if c = '-' then acc.reverse :: splitDashAux cs []
    else splitDashAux cs (c :: acc)

/-- Model of `pd.to_datetime` on one cell, at month granularity: a string
of the form YYYY-MM parses to the month ordinal `y * 12 + (m - 1)`;
anything else fails (in pandas: raises a parse error). -/
def parseMonth (s : String) : Option Nat :=
  match splitDashAux s.toList [] with
  | [y, m] =>
    match parseNatChars y, parseNatChars m with
    | some yn, some mn =>
      if 1 ≤ mn ∧ mn ≤ 12 then some (yn * 12 + (mn - 1)) else none
    | _, _ => none
  | _ => none

/-- Parse one raw row: convert the `published_month` column, keep the rest. -/
def parseRow (r : RawRow) : Option Row :=
  match parseMonth r.published_month with
  | some d =>
    some ⟨d, r.job_count, r.simulated_platform_fee, r.price_gap_abs,
          r.client_budget_usd, r.country, r.budget_category⟩
  | none => none

/-- Model of `df['published_month'] = pd.to_datetime(df['published_month'])`
over the whole column: succeeds iff every cell parses (pandas raises on the
first bad cell, aborting the whole conversion). -/
def parseTable : List RawRow → Option (List Row)
  | [] => some []
  | r :: rs =>
    match parseRow r, parseTable rs with
    | some x, some xs => some (x :: xs)
    | _, _ => none

/-- Abstract state of the data file at `FILE_PATH`: either the path does not
resolve to a file, or it resolves to a CSV holding the given raw records. -/
inductive FileState where
  | missing
  | present (raws : List RawRow)
deriving Repr, DecidableEq

def fileNotFoundMsg : String := "Error: Data file not found at FILE_PATH"

/-- Result of one call of `load_data` (lines 21-31 of the script):
`emptyWithError` models the `st.error` + `return pd.DataFrame()` path taken
when the path does not exist; `loaded` is the successfully parsed table;
`raised` models an exception escaping `load_data` (the script wraps
`pd.to_datetime` in no try/except, so a date-parse failure propagates). -/
inductive LoadResult where
  | emptyWithError (msg : String)
  | loaded (rows : List Row)
  | raised
deriving Repr, DecidableEq

/-- Model of `load_data` (script lines 22-31): missing file → user-visible
error and empty table; otherwise `pd.read_csv` followed by the
`published_month` conversion, whose failure raises out of the function. -/
def load_data (fs : FileState) : LoadResult :=
  match fs with
  | .missing => .emptyWithError fileNotFoundMsg
  | .present raws =>
    match parseTable raws with
    | some rows => .loaded rows
    | none => .raised

/-- KPI `TOTAL_PROJECTS` (line 39): `my_dashboard_data['job_count'].sum()`. -/
def TOTAL_PROJECTS (rows : List Row) : Nat :=
  (rows.map Row.job_count).sum

/-- KPI `TOTAL_CLIENT_COUNTRIES` (line 40):
`my_dashboard_data['country'].nunique()`, the number of distinct values. -/
def TOTAL_CLIENT_COUNTRIES (rows : List Row) : Nat :=
  (rows.map Row.country).dedup.length

/-- Model of `pandas.Series.median`: sort the values; an odd-length series
yields the middle element, an even-length one the average of the two middle
elements.  (The script only evaluates it on nonempty tables: the pipeline
stops earlier when the table is empty.) -/
def median (l : List ℚ) : ℚ :=
  let s := List.insertionSort (· ≤ ·) l
  if s.length % 2 = 1 then s.getD (s.length / 2) 0
  else (s.getD (s.length / 2 - 1) 0 + s.getD (s.length / 2) 0) / 2

/-- Arithmetic mean, for contrast with the median-valued "avg" KPI. -/
def mean (l : List ℚ) : ℚ := l.sum / l.length

/-- KPI `AVG_FEE_PER_JOB` (line 41):
`my_dashboard_data['simulated_platform_fee'].median()`. -/
def AVG_FEE_PER_JOB (rows : List Row) : ℚ :=
  median (rows.map Row.simulated_platform_fee)

/-- KPI `MEDIAN_FRICTION` (line 42):
`my_dashboard_data['price_gap_abs'].median()`. -/
def MEDIAN_FRICTION (rows : List Row) : ℚ :=
  median (rows.map Row.price_gap_abs)

/-- Sum of `job_count` over the rows of one month group (the `'sum'`
aggregation of line 74 applied to the group keyed by `m`). -/
def monthJobSum (rows : List Row) (m : Nat) : Nat :=
  ((rows.filter fun r => r.published_month == m).map Row.job_count).sum

/-- Sum of `simulated_platform_fee` over the rows of one month group. -/
def monthFeeSum (rows : List Row) (m : Nat) : ℚ :=
  ((rows.filter fun r => r.published_month == m).map Row.simulated_platform_fee).sum

/-- The distinct `published_month` keys in ascending order: `groupby` with
its default `sort=True` emits one group per distinct key, keys sorted. -/
def sortedMonths (rows : List Row) : List Nat :=
  List.insertionSort (· ≤ ·) (rows.map Row.published_month).dedup

/-- Model of `time_series_data` (lines 73-75):
`groupby('published_month', as_index=False).agg({'job_count': 'sum',
'simulated_platform_fee': 'sum'})` — one output row per distinct month,
months ascending, both numeric columns summed within the group. -/
def time_series_data (rows : List Row) : List (Nat × Nat × ℚ) :=
  (sortedMonths rows).map fun m => (m, monthJobSum rows m, monthFeeSum rows m)

/-- One step of a 64-bit linear congruential generator, modelling the
deterministic pseudo-random stream seeded by `random_state=42`. -/
def lcg (s : Nat) : Nat :=
  (6364136223846793005 * s + 1442695040888963407) % 18446744073709551616

/-- Fuelled shuffle kernel: each step rotates the remaining pool by a
pseudo-random amount and extracts the new head.  With fuel ≥ pool size the
result is a permutation of the pool. -/
def shuffleAux : Nat → Nat → List Nat → List Nat
  | 0, _, _ => []
  | fuel + 1, s, l =>
    match l.rotate (lcg s % l.length) with
    | [] => []
    | x :: xs => x :: shuffleAux fuel (lcg s) xs

/-- Seeded deterministic shuffle of a list of indices. -/
def shuffle (s : Nat) (l : List Nat) : List Nat :=
  shuffleAux l.length s l

/-- The `n` row positions the seeded sampler picks out of a table of
`len` rows: the first `n` entries of a seeded shuffle of `0, ..., len-1`
(pandas draws without replacement via a seeded permutation of positions). -/
def sampleIndices (len n s : Nat) : List Nat :=
  (shuffle s (List.range len)).take n

/-- Model of `DataFrame.sample(n=n, random_state=s)`: `n` distinct row
positions drawn deterministically from the seed; `none` models the
`ValueError` pandas raises when `n` exceeds the population and
`replace=False`. -/
def sample (rows : List Row) (n s : Nat) : Option (List Row) :=
  if n ≤ rows.length then
    some ((sampleIndices rows.length n s).filterMap fun i => rows[i]?)
  else none

/-- Model of `plot_data_sample = my_dashboard_data.sample(n=10000,
random_state=42)` (line 109). -/
def plot_data_sample (rows : List Row) : Option (List Row) :=
  sample rows 10000 42

/-- A `sample` call as issued in some ambient process state: `ambient` is
the global generator state the call would fall back to, `random_state` the
explicit seed argument.  Line 109 always passes `random_state = some 42`,
so the ambient state is ignored. -/
def sample_call (ambient : Nat) (rows : List Row) (n : Nat)
    (random_state : Option Nat) : Option (List Row) :=
  sample rows n (random_state.getD ambient)

/-- One invocation of the line-109 sampling step in a run whose ambient
generator state is `ambient`. -/
def plot_data_sample_run (ambient : Nat) (rows : List Row) : Option (List Row) :=
  sample_call ambient rows 10000 (some 42)

def budgetCategoryField : String := "budget_category"
def priceGapField : String := "price_gap_abs"
def catLow : String := "Low Budget"
def catMid : String := "Mid Budget"
def catHigh : String := "High Budget"
def catPremium : String := "Premium Budget"

/-- Declarative box-plot request, the part of the `px.box` call plus the
`update_xaxes(categoryorder='array', categoryarray=[...])` call (lines
129-138) that the chart renderer consumes. -/
structure BoxSpec where
  x : String
  y : String
  color : String
  log_y : Bool
  categoryarray : List String
deriving Repr, DecidableEq

/-- Model of `fig_box` (lines 129-138): built from the full table; the
category order is the fixed literal array of line 138. -/
def fig_box (_rows : List Row) : BoxSpec :=
  ⟨budgetCategoryField, priceGapField, budgetCategoryField, true,
   [catLow, catMid, catHigh, catPremium]⟩

/-- Everything the dashboard renders on a successful pass: the four KPI
cards, the time-series aggregate, the scatter sample and the box spec. -/
structure DashboardOutput where
  total_projects : Nat
  total_client_countries : Nat
  avg_fee_per_job : ℚ
  median_friction : ℚ
  time_series : List (Nat × Nat × ℚ)
  scatter_sample : List Row
  box : BoxSpec
deriving Repr, DecidableEq

/-- Outcome of one top-to-bottom pass of the script: `halted b` is an
`st.stop()` exit (`b` records whether `st.error` was shown first),
`raised` an uncaught exception, `rendered` a completed page. -/
inductive PipelineOutcome where
  | halted (errorEmitted : Bool)
  | raised
  | rendered (out : DashboardOutput)
deriving Repr, DecidableEq

/-- The chart/KPI construction of lines 39-139, given a successfully loaded
nonempty table and its scatter sample. -/
def render (rows : List Row) (smp : List Row) : DashboardOutput :=
  ⟨TOTAL_PROJECTS rows, TOTAL_CLIENT_COUNTRIES rows, AVG_FEE_PER_JOB rows,
   MEDIAN_FRICTION rows, time_series_data rows, smp, fig_box rows⟩

/-- Model of the whole script run (lines 33-139): load, stop on an empty
table (line 36), compute KPIs and charts; the sampling step raises when the
table has fewer than 10000 rows. -/
def run_dashboard (fs : FileState) : PipelineOutcome :=
  match load_data fs with
  | .emptyWithError _ => .halted true
  | .raised => .raised
  | .loaded rows =>
    if rows.isEmpty then .halted false
    else
      match plot_data_sample rows with
      | none => .raised
      | some smp => .rendered (render rows smp)

/-- Whether an outcome rendered a full page of KPI/chart output. -/
def isRendered : PipelineOutcome → Bool
  | .rendered _ => true
  | _ => false

/-- Whether an outcome let an exception escape the script uncaught. -/
def isRaised : PipelineOutcome → Bool
  | .raised => true
  | _ => false

/-- Whether the run reported an error condition to the user (the
`st.error` path) before halting. -/
def reportsError : PipelineOutcome → Bool
  | .halted b => b
  | _ => false

def usStr : String := "US"
def frStr : String := "FR"
def deStr : String := "DE"
def badMonthStr : String := "not-a-date"

/-- A generic concrete row used to build synthetic tables. -/
def row0 : Row := ⟨0, 1, 1, 1, 1, usStr, catLow⟩

/-- Row builder for synthetic tables: month, job count, fee, country. -/
def mkRow (m jc : Nat) (fee : ℚ) (c : String) : Row :=
  ⟨m, jc, fee, 1, 1, c, catLow⟩

/-- A raw CSV row whose `published_month` cell cannot be parsed as a date. -/
def rawBad : RawRow := ⟨badMonthStr, 1, 1, 1, 1, usStr, catLow⟩

/-- Synthetic table of §8: three rows with `job_count` 10, 20, 30. -/
def exC7 : List Row := [mkRow 0 10 1 usStr, mkRow 0 20 1 usStr, mkRow 0 30 1 usStr]

/-- Synthetic table of §8: `country` column [US, US, FR, DE]. -/
def exC8 : List Row := [mkRow 0 1 1 usStr, mkRow 0 1 1 usStr, mkRow 0 1 1 frStr, mkRow 0 1 1 deStr]

/-- Synthetic table of §8: `simulated_platform_fee` column [10, 20, 30, 40]. -/
def exC4 : List Row := [mkRow 0 1 10 usStr, mkRow 0 1 20 usStr, mkRow 0 1 30 usStr, mkRow 0 1 40 usStr]

/-- Synthetic table whose fee median (0) differs from its fee mean (10). -/
def exMean : List Row := [mkRow 0 1 0 usStr, mkRow 0 1 0 usStr, mkRow 0 1 30 usStr]

/-- C3: loading a nonexistent path makes `load_data` emit the user-visible
file-not-found error and return an empty table, after which the pipeline
halts at `st.stop()`: no KPI or chart output is produced and no exception
escapes. -/
theorem missing_file_halts_with_error :
    load_data FileState.missing = LoadResult.emptyWithError fileNotFoundMsg ∧
    run_dashboard FileState.missing = PipelineOutcome.halted true ∧
    reportsError (run_dashboard FileState.missing) = true ∧
    isRendered (run_dashboard FileState.missing) = false ∧
    isRaised (run_dashboard FileState.missing) = false :=
  ⟨rfl, rfl, rfl, rfl, rfl⟩

/-- C2 counterexample: on a file that exists but whose `published_month`
column does not parse, the run ends in an uncaught exception and no error
is reported to the user — the claimed report-and-halt behaviour fails. -/
theorem parse_error_not_reported :
    run_dashboard (FileState.present [rawBad]) = PipelineOutcome.raised ∧
    reportsError (run_dashboard (FileState.present [rawBad])) = false ∧
    isRaised (run_dashboard (FileState.present [rawBad])) = true := by
  refine ⟨?_, ?_, ?_⟩ <;> decide

/-- C2 amended: on a file that exists but whose `published_month` column
cannot be converted, the conversion failure propagates out of `load_data`
as an uncaught exception; no further computation happens in that cycle,
but no user-visible error message is emitted by the script. -/
theorem parse_error_raises (raws : List RawRow) (h : parseTable raws = none) :
    load_data (FileState.present raws) = LoadResult.raised ∧
    run_dashboard (FileState.present raws) = PipelineOutcome.raised ∧
    reportsError (run_dashboard (FileState.present raws)) = false := by
  have h1 : load_data (FileState.present raws) = LoadResult.raised := by
    simp [load_data, h]
  refine ⟨h1, ?_, ?_⟩ <;> simp [run_dashboard, h1, reportsError]

/-- Witness for `parse_error_raises` at a concrete one-row file. -/
theorem parse_error_raises_witness :
    load_data (FileState.present [rawBad]) = LoadResult.raised ∧
    run_dashboard (FileState.present [rawBad]) = PipelineOutcome.raised ∧
    reportsError (run_dashboard (FileState.present [rawBad])) = false :=
  parse_error_raises [rawBad] (by decide)

/-- C4: the `AVG_FEE_PER_JOB` KPI is the median of the
`simulated_platform_fee` column for every table; on the fee column
[10, 20, 30, 40] it is 25; and it is not the arithmetic mean (on `exMean`
the KPI is 0 while the mean is 10). -/
theorem avg_fee_per_job_is_median :
    (∀ rows : List Row,
      AVG_FEE_PER_JOB rows = median (rows.map Row.simulated_platform_fee)) ∧
    AVG_FEE_PER_JOB exC4 = 25 ∧
    AVG_FEE_PER_JOB exMean = 0 ∧
    mean (exMean.map Row.simulated_platform_fee) = 10 :=
  ⟨fun _ => rfl,
   by norm_num [AVG_FEE_PER_JOB, median, exC4, mkRow, List.insertionSort,
                List.orderedInsert],
   by norm_num [AVG_FEE_PER_JOB, median, exMean, mkRow, List.insertionSort,
                List.orderedInsert],
   by norm_num [mean, exMean, mkRow]⟩

/-- C7: the `TOTAL_PROJECTS` KPI is the exact sum of `job_count` over all
rows of every table; on the synthetic table with counts 10, 20, 30 it is
60. -/
theorem total_projects_is_sum :
    (∀ rows : List Row, TOTAL_PROJECTS rows = (rows.map Row.job_count).sum) ∧
    TOTAL_PROJECTS exC7 = 60 :=
  ⟨fun _ => rfl, by decide⟩

/-- C8: the `TOTAL_CLIENT_COUNTRIES` KPI is the number of distinct values
of the `country` column for every table; on the column [US, US, FR, DE] it
is 3. -/
theorem total_client_countries_is_distinct_count :
    (∀ rows : List Row,
      TOTAL_CLIENT_COUNTRIES rows = (rows.map Row.country).toFinset.card) ∧
    TOTAL_CLIENT_COUNTRIES exC8 = 3 :=
  ⟨fun rows => (List.card_toFinset (rows.map Row.country)).symm, by decide⟩

/-- C9: the box-plot specification fixes the category order to
[Low Budget, Mid Budget, High Budget, Premium Budget] for every input
table, and the whole specification is independent of the input rows. -/
theorem box_plot_category_order :
    (∀ rows : List Row,
      (fig_box rows).categoryarray = [catLow, catMid, catHigh, catPremium]) ∧
    ∀ rows rows2 : List Row, fig_box rows = fig_box rows2 :=
  ⟨fun _ => rfl, fun _ _ => rfl⟩

/-- C6: the line-109 sampling step passes the fixed seed 42, so two
invocations in runs with arbitrary (possibly different) ambient generator
states produce the identical sampled row set. -/
theorem sampling_deterministic (a1 a2 : Nat) (rows : List Row) :
    plot_data_sample_run a1 rows = plot_data_sample_run a2 rows ∧
    plot_data_sample_run a1 rows = plot_data_sample rows :=
  ⟨rfl, rfl⟩

/-- The months column of the aggregate is exactly the sorted distinct-month
list. -/
theorem time_series_fst (rows : List Row) :
    (time_series_data rows).map Prod.fst = sortedMonths rows := by
  rw [time_series_data, List.map_map]
  exact List.map_id' _

theorem sortedMonths_perm (rows : List Row) :
    List.Perm (sortedMonths rows) (rows.map Row.published_month).dedup :=
  List.perm_insertionSort _ _

theorem sortedMonths_sorted (rows : List Row) :
    List.Sorted (· ≤ ·) (sortedMonths rows) :=
  List.sorted_insertionSort _ _

theorem sortedMonths_nodup (rows : List Row) : (sortedMonths rows).Nodup :=
  (sortedMonths_perm rows).nodup_iff.mpr (List.nodup_dedup _)

theorem mem_sortedMonths (rows : List Row) (m : Nat) :
    m ∈ sortedMonths rows ↔ m ∈ rows.map Row.published_month := by
  rw [(sortedMonths_perm rows).mem_iff, List.mem_dedup]

/-- C1: the time-series aggregate has exactly one output row per distinct
`published_month` (so M rows for M distinct months), its month column is
duplicate-free and sorted ascending, it covers exactly the months present
in the input, and each output row carries the within-month sums of
`job_count` and `simulated_platform_fee`. -/
theorem time_series_shape (rows : List Row) :
    (time_series_data rows).length = (rows.map Row.published_month).dedup.length ∧
    ((time_series_data rows).map Prod.fst).Nodup ∧
    List.Sorted (· ≤ ·) ((time_series_data rows).map Prod.fst) ∧
    (∀ m : Nat,
      m ∈ (time_series_data rows).map Prod.fst ↔ m ∈ rows.map Row.published_month) ∧
    time_series_data rows
      = (sortedMonths rows).map fun m => (m, monthJobSum rows m, monthFeeSum rows m) := by
  refine ⟨?_, ?_, ?_, ?_, rfl⟩
  · simpa [time_series_data] using (sortedMonths_perm rows).length_eq
  · rw [time_series_fst]; exact sortedMonths_nodup rows
  · rw [time_series_fst]; exact sortedMonths_sorted rows
  · intro m; rw [time_series_fst]; exact mem_sortedMonths rows m

theorem sum_map_ite_not_mem {M : Type} [AddCommMonoid M] (c : M) (a : Nat) :
    ∀ L : List Nat, a ∉ L → (L.map fun m => if a = m then c else 0).sum = 0
  | [], _ => by simp
  | m :: ms, h => by
    have h1 : ¬ a = m := fun e => h (e ▸ List.mem_cons_self m ms)
    have h2 : a ∉ ms := fun e => h (List.mem_cons_of_mem _ e)
    simp [h1, sum_map_ite_not_mem c a ms h2]

theorem sum_map_ite_mem {M : Type} [AddCommMonoid M] (c : M) (a : Nat) :
    ∀ L : List Nat, L.Nodup → a ∈ L →
      (L.map fun m => if a = m then c else 0).sum = c
  | [], _, h => absurd h (List.not_mem_nil a)
  | m :: ms, hnd, hmem => by
    rcases List.mem_cons.mp hmem with he | hm
    · subst he
      simp [sum_map_ite_not_mem c a ms (List.nodup_cons.mp hnd).1]
    · have h1 : ¬ a = m := by
        intro e
        exact (List.nodup_cons.mp hnd).1 (e ▸ hm)
      simp only [List.map_cons, List.sum_cons, if_neg h1,
        sum_map_ite_mem c a ms (List.nodup_cons.mp hnd).2 hm, zero_add]

theorem sum_map_addf {M : Type} [AddCommMonoid M] (f g : Nat → M) :
    ∀ L : List Nat, (L.map fun m => f m + g m).sum = (L.map f).sum + (L.map g).sum
  | [] => by simp
  | m :: ms => by
    simp only [List.map_cons, List.sum_cons, sum_map_addf f g ms]
    rw [add_add_add_comm]

/-- Summing the per-group sums over a duplicate-free key list that covers
every row's key gives back the whole-column sum: the group-by partition of
`time_series_data` loses nothing. -/
theorem sum_groups {M : Type} [AddCommMonoid M] (f : Row → M)
    (L : List Nat) (hnd : L.Nodup) :
    ∀ rows : List Row, (∀ r ∈ rows, r.published_month ∈ L) →
      (L.map fun m => ((rows.filter fun x => x.published_month == m).map f).sum).sum
        = (rows.map f).sum
  | [], _ => by simp
  | r :: rs, hcov => by
    have hr : r.published_month ∈ L := hcov r (List.mem_cons_self r rs)
    have hrs : ∀ x ∈ rs, x.published_month ∈ L :=
      fun x hx => hcov x (List.mem_cons_of_mem _ hx)
    have step : ∀ m : Nat,
        (((r :: rs).filter fun x => x.published_month == m).map f).sum
          = (if r.published_month = m then f r else 0)
            + ((rs.filter fun x => x.published_month == m).map f).sum := by
      intro m
      by_cases h : r.published_month = m
      · simp [List.filter_cons, h]
      · simp [List.filter_cons, h]
    calc (L.map fun m =>
            (((r :: rs).filter fun x => x.published_month == m).map f).sum).sum
        = (L.map fun m =>
            (if r.published_month = m then f r else 0)
              + ((rs.filter fun x => x.published_month == m).map f).sum).sum := by
          simp only [step]
      _ = (L.map fun m => if r.published_month = m then f r else 0).sum
            + (L.map fun m =>
                ((rs.filter fun x => x.published_month == m).map f).sum).sum :=
          sum_map_addf _ _ L
      _ = f r + (rs.map f).sum := by
          rw [sum_map_ite_mem (f r) _ L hnd hr, sum_groups f L hnd rs hrs]
      _ = ((r :: rs).map f).sum := by simp

/-- C10: summing the monthly `job_count` sums over the whole time-series
aggregate recovers the `TOTAL_PROJECTS` KPI, and likewise the monthly
`simulated_platform_fee` sums recover the whole-column fee total. -/
theorem time_series_preserves_totals (rows : List Row) :
    ((time_series_data rows).map fun e => e.2.1).sum = TOTAL_PROJECTS rows ∧
    ((time_series_data rows).map fun e => e.2.2).sum
      = (rows.map Row.simulated_platform_fee).sum := by
  have hcov : ∀ r ∈ rows, r.published_month ∈ sortedMonths rows := by
    intro r hr
    exact (mem_sortedMonths rows _).mpr (List.mem_map_of_mem Row.published_month hr)
  constructor
  · have h := sum_groups Row.job_count (sortedMonths rows)
      (sortedMonths_nodup rows) rows hcov
    simpa [time_series_data, monthJobSum, List.map_map, Function.comp,
      TOTAL_PROJECTS] using h
  · have h := sum_groups Row.simulated_platform_fee (sortedMonths rows)
      (sortedMonths_nodup rows) rows hcov
    simpa [time_series_data, monthFeeSum, List.map_map, Function.comp] using h

/-- The shuffle kernel permutes its pool whenever it has enough fuel. -/
theorem shuffleAux_perm :
    ∀ (fuel s : Nat) (l : List Nat), l.length ≤ fuel →
      List.Perm (shuffleAux fuel s l) l := by
  intro fuel
  induction fuel with
  | zero =>
    intro s l h
    have hl : l = [] := List.length_eq_zero.mp (Nat.le_zero.mp h)
    subst hl
    exact List.Perm.refl _
  | succ n ih =>
    intro s l h
    have heq : shuffleAux (n + 1) s l
        = match l.rotate (lcg s % l.length) with
          | [] => []
          | x :: xs => x :: shuffleAux n (lcg s) xs := rfl
    cases hr : l.rotate (lcg s % l.length) with
    | nil =>
      have hlen : l.length = 0 := by
        have hp := (List.rotate_perm l (lcg s % l.length)).length_eq
        rw [hr] at hp
        simpa using hp.symm
      have hl : l = [] := List.length_eq_zero.mp hlen
      subst hl
      exact List.Perm.refl _
    | cons x xs =>
      have hperm : List.Perm (x :: xs) l := hr ▸ List.rotate_perm l (lcg s % l.length)
      have hlen : xs.length ≤ n := by
        have hp := hperm.length_eq
        simp only [List.length_cons] at hp
        omega
      rw [heq, hr]
      exact (List.Perm.cons x (ih (lcg s) xs hlen)).trans hperm

/-- When the requested size fits the table, the drawn index list has
exactly the requested size, repeats no position, and stays in bounds. -/
theorem sampleIndices_spec (len n s : Nat) (h : n ≤ len) :
    (sampleIndices len n s).length = n ∧ (sampleIndices len n s).Nodup ∧
      ∀ i ∈ sampleIndices len n s, i < len := by
  have hperm : List.Perm (shuffle s (List.range len)) (List.range len) :=
    shuffleAux_perm _ _ _ (Nat.le_refl _)
  have hnd : (shuffle s (List.range len)).Nodup :=
    hperm.nodup_iff.mpr (List.nodup_range len)
  refine ⟨?_, ?_, ?_⟩
  · rw [sampleIndices, List.length_take, hperm.length_eq, List.length_range]
    exact Nat.min_eq_left h
  · exact List.Nodup.sublist (List.take_sublist _ _) hnd
  · intro i hi
    have hmem : i ∈ List.range len := hperm.mem_iff.mp (List.mem_of_mem_take hi)
    exact List.mem_range.mp hmem

/-- Selecting rows through a list of in-bounds positions keeps its length. -/
theorem filterMap_getElem_length (rows : List Row) :
    ∀ l : List Nat, (∀ i ∈ l, i < rows.length) →
      (l.filterMap fun i => rows[i]?).length = l.length
  | [], _ => rfl
  | a :: as, h => by
    have ha : a < rows.length := h a (List.mem_cons_self a as)
    have hsome : rows[a]? = some rows[a] := List.getElem?_eq_getElem ha
    have hrest := filterMap_getElem_length rows as
      fun i hi => h i (List.mem_cons_of_mem _ hi)
    simp [List.filterMap_cons, hsome, hrest]

/-- C5: on a table of at least 10000 rows, the line-109 sampler succeeds
and draws exactly 10000 rows picked at pairwise-distinct in-bounds
positions (without replacement); on a table of fewer than 10000 rows the
sampling step fails — the source does not clamp the sample size. -/
theorem plot_data_sample_spec (rows : List Row) :
    (10000 ≤ rows.length →
      plot_data_sample rows
          = some ((sampleIndices rows.length 10000 42).filterMap fun i => rows[i]?) ∧
      (sampleIndices rows.length 10000 42).length = 10000 ∧
      (sampleIndices rows.length 10000 42).Nodup ∧
      (∀ i ∈ sampleIndices rows.length 10000 42, i < rows.length) ∧
      ∃ l, plot_data_sample rows = some l ∧ l.length = 10000) ∧
    (rows.length < 10000 → plot_data_sample rows = none) := by
  constructor
  · intro h
    obtain ⟨hlen, hnd, hbound⟩ := sampleIndices_spec rows.length 10000 42 h
    have heq : plot_data_sample rows
        = some ((sampleIndices rows.length 10000 42).filterMap fun i => rows[i]?) := by
      rw [plot_data_sample, sample, if_pos h]
    refine ⟨heq, hlen, hnd, hbound, _, heq, ?_⟩
    rw [filterMap_getElem_length rows _ hbound, hlen]
  · intro h
    rw [plot_data_sample, sample, if_neg (Nat.not_le.mpr h)]

/-- Witness for `plot_data_sample_spec`: a 10000-row table is sampled in
full size, a 1-row table makes the sampler fail. -/
theorem plot_data_sample_spec_witness :
    (∃ l, plot_data_sample (List.replicate 10000 row0) = some l ∧ l.length = 10000) ∧
    plot_data_sample [row0] = none :=
  ⟨((plot_data_sample_spec (List.replicate 10000 row0)).1 (by norm_num)).2.2.2.2,
   (plot_data_sample_spec [row0]).2 (by norm_num)⟩

end Marketplace
